import Mathlib

/-!
A shallow embedding of the Proxmox VS Code extension's REST client
(`ProxmoxClient` from the TypeScript source).  Pure computations (status
normalization, guest mapping, merging and sorting, snapshot filtering,
request-option construction, response handling) are translated directly
into Lean functions.  Network I/O is modelled by passing an explicit
transport function `Request → Except ClientError α` to each operation;
every operation returns its result together with the list of requests it
handed to the transport, so that statements such as "zero transport
invocations" are statements about that trace.
-/

deriving instance DecidableEq for Except

namespace Proxmox

/-- Node status from the `ProxmoxNode` interface: `'online' | 'offline' | 'unknown'`. -/
inductive NodeStatus where
  | online
  | offline
  | unknown
  deriving DecidableEq, Repr

/-- Guest status from the `ProxmoxVm` interface: `'running' | 'stopped' | 'unknown'`. -/
inductive VmStatus where
  | running
  | stopped
  | unknown
  deriving DecidableEq, Repr

/-- Guest type from the `ProxmoxVm` interface: `'qemu' | 'lxc'`. -/
inductive VmType where
  | qemu
  | lxc
  deriving DecidableEq, Repr

/-- The `ProxmoxNode` record. -/
structure ProxmoxNode where
  name : String
  status : NodeStatus
  deriving DecidableEq, Repr

/-- The `ProxmoxVm` record.  `id` is the numeric vmid (JS `number`; the
client only ever stores integers here: a remote vmid or the `-1` default). -/
structure ProxmoxVm where
  id : Int
  name : String
  status : VmStatus
  type : VmType
  node : String
  deriving DecidableEq, Repr

/-- The `ProxmoxVmDetails` record.  Note `status` is a free-form string
here, not the `VmStatus` enum, exactly as in the source. -/
structure ProxmoxVmDetails where
  id : Int
  name : String
  status : String
  uptime : Int
  cpu : Rat
  mem : Int
  maxMem : Int
  node : String
  type : VmType
  deriving DecidableEq, Repr

/-- The `ProxmoxSnapshot` record.  `createdAt` is `number | null`,
modelled as `Option Int` (`none` = `null`). -/
structure ProxmoxSnapshot where
  name : String
  createdAt : Option Int
  deriving DecidableEq, Repr

/-- The `ProxmoxClientConfig` interface; `allowInsecure?` is optional. -/
structure ProxmoxClientConfig where
  host : String
  apiToken : String
  allowInsecure : Option Bool
  deriving DecidableEq, Repr

/-- The `ProxmoxClient` fields after construction. -/
structure ProxmoxClient where
  host : String
  apiToken : String
  allowInsecure : Bool
  deriving DecidableEq, Repr

/-- JavaScript `String.prototype.trim`: strip leading and trailing
whitespace (modelled as an explicit list computation). -/
def jsTrim (s : String) : String :=
  String.mk (((s.toList.dropWhile Char.isWhitespace).reverse.dropWhile
    Char.isWhitespace).reverse)

/-- JavaScript `String.prototype.endsWith` (modelled as an explicit list
computation). -/
def jsEndsWith (s suffix : String) : Bool :=
  suffix.toList.isSuffixOf s.toList

/-- The `ProxmoxClient` constructor: host and token are trimmed, the
insecure flag goes through `Boolean(...)` (absent means `false`). -/
def ProxmoxClient.ofConfig (config : ProxmoxClientConfig) : ProxmoxClient :=
  { host := jsTrim config.host
    apiToken := jsTrim config.apiToken
    allowInsecure := config.allowInsecure.getD false }

/-- The failure modes an operation can surface.  The source throws plain
`Error`s; the constructors here record which code path produced the error
(configuration guard, `new URL` throwing, non-2xx status, `JSON.parse`
throwing, transport-level failure), with the human-readable message. -/
inductive ClientError where
  | configError (message : String)
  | urlError (message : String)
  | protocolError (message : String)
  | decodeError (message : String)
  | transportError (message : String)
  deriving DecidableEq, Repr

/-- The message thrown by the host/token guard in `listNodes`,
`listVirtualMachines` and `getVirtualMachineDetails`. -/
def configErrorMessage : String := "Proxmox host or API token is not configured."

/-- A parsed URL: the scheme (WHATWG `protocol`, colon included, e.g.
`"https:"`) and the full serialized string. -/
structure Url where
  protocol : String
  href : String
  deriving DecidableEq, Repr

/-- First character of a URL scheme: an ASCII letter. -/
def isSchemeStartChar (ch : Char) : Bool := ch.isAlpha

/-- Later characters of a URL scheme: letters, digits, `+`, `-`, `.`. -/
def isSchemeChar (ch : Char) : Bool :=
  ch.isAlphanum || ch = '+' || ch = '-' || ch = '.'

/-- Model of the WHATWG `new URL(input)` constructor for the absolute URL
strings this client builds: the input is valid exactly when it starts with
a scheme followed by a colon (`https://…`, `http://…`); otherwise the
constructor throws (`none` here).  The `protocol` is the scheme with its
colon; the `href` keeps the input verbatim (the inputs in play are already
in serialized form). -/
def parseUrl (s : String) : Option Url :=
  match s.toList.span (fun ch => ch ≠ ':') with
  | (scheme, _ :: _) =>
    match scheme with
    | c :: rest =>
      if isSchemeStartChar c && rest.all isSchemeChar then
        some { protocol := (String.mk scheme).push ':', href := s }
      else
        none
    | [] => none
  | (_, []) => none

/-- Model of `new URL(rel, base)` for the relative paths this client
appends (no leading slash, no `.` or `..` segments) against a base whose
path ends in `/`: WHATWG resolution is then concatenation. -/
def resolveUrl (base : Url) (rel : String) : Url :=
  { protocol := base.protocol, href := base.href ++ rel }

/-- `normalizedBaseUrl`: appends a trailing slash when missing, then runs
the URL constructor, which throws (here: `urlError`) on an invalid host. -/
def ProxmoxClient.normalizedBaseUrl (c : ProxmoxClient) : Except ClientError Url :=
  match parseUrl (if jsEndsWith c.host "/" then c.host else c.host ++ "/") with
  | some u => Except.ok u
  | none => Except.error (ClientError.urlError "Invalid URL")

/-- Hexadecimal digit (uppercase), as `encodeURIComponent` produces. -/
def hexDigit (n : Nat) : Char :=
  if n < 10 then Char.ofNat (48 + n) else Char.ofNat (55 + n)

/-- UTF-8 bytes of a code point. -/
def utf8Bytes (n : Nat) : List Nat :=
  if n < 128 then [n]
  else if n < 2048 then [192 + n / 64, 128 + n % 64]
  else if n < 65536 then [224 + n / 4096, 128 + (n / 64) % 64, 128 + n % 64]
  else [240 + n / 262144, 128 + (n / 4096) % 64, 128 + (n / 64) % 64, 128 + n % 64]

/-- Characters `encodeURIComponent` leaves unescaped besides alphanumerics. -/
def uriUnreserved : List Char :=
  ['-', '_', '.', '!', '~', '*', Char.ofNat 39, '(', ')']

/-- JavaScript `encodeURIComponent`: alphanumerics and the unreserved
marks pass through; every other character is percent-encoded byte-wise. -/
def encodeURIComponent (s : String) : String :=
  String.join (s.toList.map (fun ch =>
    if ch.isAlphanum || uriUnreserved.contains ch then
      String.singleton ch
    else
      String.join ((utf8Bytes ch.toNat).map (fun b =>
        String.mk ['%', hexDigit (b / 16), hexDigit (b % 16)]))))

/-- HTTP method used by `requestJson`. -/
inductive Method where
  | GET
  | POST
  | DELETE
  deriving DecidableEq, Repr

/-- A request handed to the transport: the resolved URL, the method and
the (not yet form-encoded) body key/value pairs, when present. -/
structure Request where
  url : Url
  method : Method
  body : Option (List (String × String))
  deriving DecidableEq, Repr

/-- The `{"data": ...}` envelope every endpoint answers with; `data` may
be absent. -/
structure DataEnvelope (α : Type) where
  data : Option α
  deriving DecidableEq, Repr

/-- A transport double standing in for `requestJson`'s network exchange:
it maps a request to the parsed JSON payload or a failure. -/
def Transport (α : Type) : Type := Request → Except ClientError α

/-- One entry of the remote node collection (`{ node?, status? }`). -/
structure NodeEntry where
  node : Option String
  status : Option String
  deriving DecidableEq, Repr

/-- One entry of a remote qemu/lxc collection (`{ vmid?, name?, status? }`). -/
structure VmEntry where
  vmid : Option Int
  name : Option String
  status : Option String
  deriving DecidableEq, Repr

/-- The remote guest-detail payload (`{ name?, status?, uptime?, cpu?,
mem?, maxmem? }`). -/
structure VmDetailEntry where
  name : Option String
  status : Option String
  uptime : Option Int
  cpu : Option Rat
  mem : Option Int
  maxmem : Option Int
  deriving DecidableEq, Repr

/-- One entry of the remote snapshot collection (`{ name?, snaptime? }`). -/
structure SnapshotEntry where
  name : Option String
  snaptime : Option Int
  deriving DecidableEq, Repr

/-- `normalizeStatus`: `'online'` and `'offline'` pass through, anything
else (any other string, or an absent field) collapses to `unknown`. -/
def ProxmoxClient.normalizeStatus (status : Option String) : NodeStatus :=
  if status = some "online" then NodeStatus.online
  else if status = some "offline" then NodeStatus.offline
  else NodeStatus.unknown

/-- `normalizeVmStatus`: `'running'` and `'stopped'` pass through,
anything else collapses to `unknown`. -/
def ProxmoxClient.normalizeVmStatus (status : Option String) : VmStatus :=
  if status = some "running" then VmStatus.running
  else if status = some "stopped" then VmStatus.stopped
  else VmStatus.unknown

/-- The label interpolated into the generated guest name: the vmid when
present, the string `"unknown"` otherwise (JS `vm.vmid ?? 'unknown'`). -/
def vmidLabel : Option Int → String
  | some i => toString i
  | none => "unknown"

/-- The node-collection mapper inside `listNodes`: name defaults to
`"unknown"`, status goes through `normalizeStatus`. -/
def ProxmoxClient.mapNode (entry : NodeEntry) : ProxmoxNode :=
  { name := entry.node.getD "unknown"
    status := ProxmoxClient.normalizeStatus entry.status }

/-- `mapVm`: id defaults to `-1`; the name is the trimmed remote name
unless that is empty or absent (JS `vm.name?.trim() || ...`), in which
case it is `"VM "` followed by `vmidLabel vm.vmid`. -/
def ProxmoxClient.mapVm (vm : VmEntry) (type : VmType) (node : String) : ProxmoxVm :=
  { id := vm.vmid.getD (-1)
    name :=
      let trimmed := jsTrim (vm.name.getD "")
      if trimmed = "" then "VM " ++ vmidLabel vm.vmid else trimmed
    status := ProxmoxClient.normalizeVmStatus vm.status
    type := type
    node := node }

/-- The comparator `(a, b) => a.id - b.id` of `listVirtualMachines`,
as the Boolean total preorder it induces on guest records. -/
def vmLe (a b : ProxmoxVm) : Bool := a.id ≤ b.id

/-- The pure core of `listVirtualMachines` after both responses arrive:
map the qemu entries, map the lxc entries, concatenate, and sort by id
with JavaScript's stable `Array.prototype.sort` (modelled by the stable
`List.mergeSort`). -/
def ProxmoxClient.mergeGuestLists (qemuData lxcData : List VmEntry) (node : String) :
    List ProxmoxVm :=
  List.mergeSort
    (qemuData.map (fun vm => ProxmoxClient.mapVm vm VmType.qemu node) ++
      lxcData.map (fun vm => ProxmoxClient.mapVm vm VmType.lxc node))
    vmLe

/-- The filter predicate of `listSnapshots`:
`snapshot.name && snapshot.name !== 'current'` (an absent or empty name is
falsy). -/
def snapshotKeep (s : SnapshotEntry) : Bool :=
  match s.name with
  | some n => n ≠ "" && n ≠ "current"
  | none => false

/-- The mapper of `listSnapshots`: name defaults to `"unknown"` (dead
after the filter), `createdAt` is the remote `snaptime` or `null`. -/
def mapSnapshot (s : SnapshotEntry) : ProxmoxSnapshot :=
  { name := s.name.getD "unknown", createdAt := s.snaptime }

/-- The pure core of `listSnapshots`: default the envelope, filter, map. -/
def ProxmoxClient.snapshotsFromData (data : Option (List SnapshotEntry)) :
    List ProxmoxSnapshot :=
  ((data.getD []).filter snapshotKeep).map mapSnapshot

/-- The path fragment a guest type contributes to URLs (`${type}`). -/
def vmTypePath : VmType → String
  | VmType.qemu => "qemu"
  | VmType.lxc => "lxc"

/-- The pure core of `getVirtualMachineDetails` after the response
arrives: every numeric field defaults to 0, the name to `"VM <id>"`
when blank/absent, the status to the free-form string `"unknown"`. -/
def ProxmoxClient.detailFromData (data : VmDetailEntry) (node : String)
    (type : VmType) (vmId : Int) : ProxmoxVmDetails :=
  { id := vmId
    name :=
      let trimmed := jsTrim (data.name.getD "")
      if trimmed = "" then "VM " ++ toString vmId else trimmed
    status := data.status.getD "unknown"
    uptime := data.uptime.getD 0
    cpu := data.cpu.getD 0
    mem := data.mem.getD 0
    maxMem := data.maxmem.getD 0
    node := node
    type := type }

/-- The `data ?? {}` default of `getVirtualMachineDetails`. -/
def VmDetailEntry.empty : VmDetailEntry :=
  { name := none, status := none, uptime := none, cpu := none, mem := none, maxmem := none }

/-- The GET request `listNodes` issues. -/
def nodesRequest (baseUrl : Url) : Request :=
  { url := resolveUrl baseUrl "api2/json/nodes", method := Method.GET, body := none }

/-- `listNodes`: guard, base-URL construction, one GET, then the mapper.
The second component is the trace of requests handed to the transport. -/
def ProxmoxClient.listNodes (c : ProxmoxClient)
    (transport : Transport (DataEnvelope (List NodeEntry))) :
    Except ClientError (List ProxmoxNode) × List Request :=
  if c.host = "" ∨ c.apiToken = "" then
    (Except.error (ClientError.configError configErrorMessage), [])
  else
    match c.normalizedBaseUrl with
    | Except.error e => (Except.error e, [])
    | Except.ok baseUrl =>
      let req := nodesRequest baseUrl
      match transport req with
      | Except.error e => (Except.error e, [req])
      | Except.ok response =>
        (Except.ok ((response.data.getD []).map ProxmoxClient.mapNode), [req])

/-- The GET request for the qemu collection of a node. -/
def qemuRequest (baseUrl : Url) (node : String) : Request :=
  { url := resolveUrl baseUrl ("api2/json/nodes/" ++ encodeURIComponent node ++ "/qemu")
    method := Method.GET
    body := none }

/-- The GET request for the lxc collection of a node. -/
def lxcRequest (baseUrl : Url) (node : String) : Request :=
  { url := resolveUrl baseUrl ("api2/json/nodes/" ++ encodeURIComponent node ++ "/lxc")
    method := Method.GET
    body := none }

/-- `listVirtualMachines`: guard, base-URL construction, two concurrent
GETs joined with `Promise.all` (both are issued; the first failure rejects
the join and the sibling result is discarded), then map, concatenate and
stable-sort by id. -/
def ProxmoxClient.listVirtualMachines (c : ProxmoxClient)
    (transport : Transport (DataEnvelope (List VmEntry))) (node : String) :
    Except ClientError (List ProxmoxVm) × List Request :=
  if c.host = "" ∨ c.apiToken = "" then
    (Except.error (ClientError.configError configErrorMessage), [])
  else
    match c.normalizedBaseUrl with
    | Except.error e => (Except.error e, [])
    | Except.ok baseUrl =>
      let reqs := [qemuRequest baseUrl node, lxcRequest baseUrl node]
      match transport (qemuRequest baseUrl node), transport (lxcRequest baseUrl node) with
      | Except.error e, _ => (Except.error e, reqs)
      | Except.ok _, Except.error e => (Except.error e, reqs)
      | Except.ok qemuResponse, Except.ok lxcResponse =>
        (Except.ok
          (ProxmoxClient.mergeGuestLists (qemuResponse.data.getD [])
            (lxcResponse.data.getD []) node),
          reqs)

/-- The GET request for a guest's current status. -/
def detailRequest (baseUrl : Url) (node : String) (type : VmType) (vmId : Int) : Request :=
  { url := resolveUrl baseUrl
      ("api2/json/nodes/" ++ encodeURIComponent node ++ "/" ++ vmTypePath type ++ "/" ++
        toString vmId ++ "/status/current")
    method := Method.GET
    body := none }

/-- `getVirtualMachineDetails`: guard, one GET, then the detail mapper
over `data ?? {}`. -/
def ProxmoxClient.getVirtualMachineDetails (c : ProxmoxClient)
    (transport : Transport (DataEnvelope VmDetailEntry)) (node : String)
    (type : VmType) (vmId : Int) :
    Except ClientError ProxmoxVmDetails × List Request :=
  if c.host = "" ∨ c.apiToken = "" then
    (Except.error (ClientError.configError configErrorMessage), [])
  else
    match c.normalizedBaseUrl with
    | Except.error e => (Except.error e, [])
    | Except.ok baseUrl =>
      let req := detailRequest baseUrl node type vmId
      match transport req with
      | Except.error e => (Except.error e, [req])
      | Except.ok response =>
        (Except.ok
          (ProxmoxClient.detailFromData (response.data.getD VmDetailEntry.empty)
            node type vmId),
          [req])

/-- The POST request for a lifecycle action (`start`, `stop`, `reboot`). -/
def lifecycleRequest (baseUrl : Url) (node : String) (type : VmType) (vmId : Int)
    (action : String) : Request :=
  { url := resolveUrl baseUrl
      ("api2/json/nodes/" ++ encodeURIComponent node ++ "/" ++ vmTypePath type ++ "/" ++
        toString vmId ++ "/status/" ++ action)
    method := Method.POST
    body := none }

/-- `startVirtualMachine`: no host/token guard in the source; the base URL
is built (throwing on an invalid host) and one POST is issued, its JSON
result discarded. -/
def ProxmoxClient.startVirtualMachine (c : ProxmoxClient) (transport : Transport Unit)
    (node : String) (type : VmType) (vmId : Int) :
    Except ClientError Unit × List Request :=
  match c.normalizedBaseUrl with
  | Except.error e => (Except.error e, [])
  | Except.ok baseUrl =>
    let req := lifecycleRequest baseUrl node type vmId "start"
    match transport req with
    | Except.error e => (Except.error e, [req])
    | Except.ok _ => (Except.ok (), [req])

/-- `stopVirtualMachine`: like `startVirtualMachine`, POST to `status/stop`. -/
def ProxmoxClient.stopVirtualMachine (c : ProxmoxClient) (transport : Transport Unit)
    (node : String) (type : VmType) (vmId : Int) :
    Except ClientError Unit × List Request :=
  match c.normalizedBaseUrl with
  | Except.error e => (Except.error e, [])
  | Except.ok baseUrl =>
    let req := lifecycleRequest baseUrl node type vmId "stop"
    match transport req with
    | Except.error e => (Except.error e, [req])
    | Except.ok _ => (Except.ok (), [req])

/-- `restartVirtualMachine`: like `startVirtualMachine`, POST to
`status/reboot`. -/
def ProxmoxClient.restartVirtualMachine (c : ProxmoxClient) (transport : Transport Unit)
    (node : String) (type : VmType) (vmId : Int) :
    Except ClientError Unit × List Request :=
  match c.normalizedBaseUrl with
  | Except.error e => (Except.error e, [])
  | Except.ok baseUrl =>
    let req := lifecycleRequest baseUrl node type vmId "reboot"
    match transport req with
    | Except.error e => (Except.error e, [req])
    | Except.ok _ => (Except.ok (), [req])

/-- The GET request for a guest's snapshot collection. -/
def snapshotListRequest (baseUrl : Url) (node : String) (type : VmType) (vmId : Int) :
    Request :=
  { url := resolveUrl baseUrl
      ("api2/json/nodes/" ++ encodeURIComponent node ++ "/" ++ vmTypePath type ++ "/" ++
        toString vmId ++ "/snapshot")
    method := Method.GET
    body := none }

/-- `listSnapshots`: no host/token guard in the source; one GET, then the
filter/map core. -/
def ProxmoxClient.listSnapshots (c : ProxmoxClient)
    (transport : Transport (DataEnvelope (List SnapshotEntry))) (node : String)
    (type : VmType) (vmId : Int) :
    Except ClientError (List ProxmoxSnapshot) × List Request :=
  match c.normalizedBaseUrl with
  | Except.error e => (Except.error e, [])
  | Except.ok baseUrl =>
    let req := snapshotListRequest baseUrl node type vmId
    match transport req with
    | Except.error e => (Except.error e, [req])
    | Except.ok response =>
      (Except.ok (ProxmoxClient.snapshotsFromData response.data), [req])

/-- The POST request that creates a snapshot, with its form body. -/
def snapshotCreateRequest (baseUrl : Url) (node : String) (type : VmType) (vmId : Int)
    (name : String) : Request :=
  { url := resolveUrl baseUrl
      ("api2/json/nodes/" ++ encodeURIComponent node ++ "/" ++ vmTypePath type ++ "/" ++
        toString vmId ++ "/snapshot")
    method := Method.POST
    body := some [("snapname", name)] }

/-- `createSnapshot`: no host/token guard in the source; one POST with the
snapshot name as form payload. -/
def ProxmoxClient.createSnapshot (c : ProxmoxClient) (transport : Transport Unit)
    (node : String) (type : VmType) (vmId : Int) (name : String) :
    Except ClientError Unit × List Request :=
  match c.normalizedBaseUrl with
  | Except.error e => (Except.error e, [])
  | Except.ok baseUrl =>
    let req := snapshotCreateRequest baseUrl node type vmId name
    match transport req with
    | Except.error e => (Except.error e, [req])
    | Except.ok _ => (Except.ok (), [req])

/-- The DELETE request for a named snapshot. -/
def snapshotDeleteRequest (baseUrl : Url) (node : String) (type : VmType) (vmId : Int)
    (name : String) : Request :=
  { url := resolveUrl baseUrl
      ("api2/json/nodes/" ++ encodeURIComponent node ++ "/" ++ vmTypePath type ++ "/" ++
        toString vmId ++ "/snapshot/" ++ encodeURIComponent name)
    method := Method.DELETE
    body := none }

/-- `deleteSnapshot`: no host/token guard in the source; one DELETE. -/
def ProxmoxClient.deleteSnapshot (c : ProxmoxClient) (transport : Transport Unit)
    (node : String) (type : VmType) (vmId : Int) (name : String) :
    Except ClientError Unit × List Request :=
  match c.normalizedBaseUrl with
  | Except.error e => (Except.error e, [])
  | Except.ok baseUrl =>
    let req := snapshotDeleteRequest baseUrl node type vmId name
    match transport req with
    | Except.error e => (Except.error e, [req])
    | Except.ok _ => (Except.ok (), [req])

/-- The POST request that rolls a guest back to a named snapshot. -/
def snapshotRollbackRequest (baseUrl : Url) (node : String) (type : VmType) (vmId : Int)
    (name : String) : Request :=
  { url := resolveUrl baseUrl
      ("api2/json/nodes/" ++ encodeURIComponent node ++ "/" ++ vmTypePath type ++ "/" ++
        toString vmId ++ "/snapshot/" ++ encodeURIComponent name ++ "/rollback")
    method := Method.POST
    body := none }

/-- `restoreSnapshot`: no host/token guard in the source; one POST to the
rollback endpoint. -/
def ProxmoxClient.restoreSnapshot (c : ProxmoxClient) (transport : Transport Unit)
    (node : String) (type : VmType) (vmId : Int) (name : String) :
    Except ClientError Unit × List Request :=
  match c.normalizedBaseUrl with
  | Except.error e => (Except.error e, [])
  | Except.ok baseUrl =>
    let req := snapshotRollbackRequest baseUrl node type vmId name
    match transport req with
    | Except.error e => (Except.error e, [req])
    | Except.ok _ => (Except.ok (), [req])

/-- The node `https.Agent` option object: `new Agent({ rejectUnauthorized:
false })` when built at all. -/
structure Agent where
  rejectUnauthorized : Bool
  deriving DecidableEq, Repr

/-- The request-options object `requestJson` passes to `http.request` /
`https.request`. -/
structure RequestOptions where
  method : Method
  headers : List (String × String)
  agent : Option Agent
  rejectUnauthorized : Option Bool
  deriving DecidableEq, Repr

/-- `application/x-www-form-urlencoded` serialization of one component,
as `URLSearchParams.toString` produces it: space becomes `+`,
alphanumerics and `*-._` pass, everything else is percent-encoded. -/
def formEncodeComponent (s : String) : String :=
  String.join (s.toList.map (fun ch =>
    if ch = ' ' then "+"
    else if ch.isAlphanum || ch = '*' || ch = '-' || ch = '.' || ch = '_' then
      String.singleton ch
    else
      String.join ((utf8Bytes ch.toNat).map (fun b =>
        String.mk ['%', hexDigit (b / 16), hexDigit (b % 16)]))))

/-- `URLSearchParams(...).toString()` over the body's key/value pairs. -/
def formUrlEncode (body : List (String × String)) : String :=
  String.intercalate "&"
    (body.map (fun kv => formEncodeComponent kv.1 ++ "=" ++ formEncodeComponent kv.2))

/-- The options object built inside `requestJson` (source lines 222-246):
`useHttps` is every protocol other than `http:`; the insecure flag turns
certificate validation off only on such connections, both through a
dedicated `Agent` and through the `rejectUnauthorized` option; for plain
`http:` both TLS options stay unset. -/
def ProxmoxClient.buildRequestOptions (c : ProxmoxClient) (url : Url) (method : Method)
    (body : Option (List (String × String))) : RequestOptions :=
  let useHttps := url.protocol ≠ "http:"
  let payload := body.map formUrlEncode
  { method := method
    headers :=
      [("Accept", "application/json"), ("Authorization", "PVEAPIToken=" ++ c.apiToken)] ++
        (match payload with
          | some p =>
            [("Content-Type", "application/x-www-form-urlencoded"),
              ("Content-Length", toString p.utf8ByteSize)]
          | none => [])
    agent :=
      if useHttps ∧ c.allowInsecure then some { rejectUnauthorized := false } else none
    rejectUnauthorized := if useHttps then some (!c.allowInsecure) else none }

/-- The status-code label in the protocol-error message
(`statusCode ?? 'unknown'`). -/
def statusCodeLabel : Option Nat → String
  | some code => toString code
  | none => "unknown"

/-- The response handler inside `requestJson` (source lines 257-268): a
missing or non-2xx status rejects with a protocol error carrying the
status code and the raw body; otherwise the body goes through the JSON
parser (`JSON.parse`, passed in as `parseJson`), whose failure rejects
with a distinct decode error. -/
def handleResponse {α : Type} (parseJson : String → Except String α)
    (statusCode : Option Nat) (body : String) : Except ClientError α :=
  if statusCode = none ∨ statusCode.getD 0 < 200 ∨ 300 ≤ statusCode.getD 0 then
    Except.error (ClientError.protocolError
      ("Proxmox API error " ++ statusCodeLabel statusCode ++ ": " ++ body))
  else
    match parseJson body with
    | Except.ok value => Except.ok value
    | Except.error e => Except.error (ClientError.decodeError e)

/-- Following the claim's words, not the source: a placeholder name built
from the guest's type and its numeric id, the literal reading of the
spec's default `"<Type> <id>"` with type ranging over qemu and lxc. -/
def specPlaceholderName (type : VmType) (id : Int) : String :=
  vmTypePath type ++ " " ++ toString id

/-- Witness fixture: a node-collection payload with one recognized and
one unrecognized status string. -/
def claim7NodeEntry : NodeEntry := { node := some "pve1", status := some "weird" }

/-- Witness fixture: a guest entry whose status field is absent. -/
def claim7VmEntry : VmEntry := { vmid := some 7, name := some "x", status := none }

/-- Witness fixture: a snapshot payload holding the synthetic `current`
entry, one real snapshot with a snaptime, a nameless entry and an
empty-named entry. -/
def snapshotPayload : List SnapshotEntry :=
  [{ name := some "current", snaptime := some 1 },
    { name := some "snap1", snaptime := some 5 },
    { name := none, snaptime := some 7 },
    { name := some "", snaptime := none }]

/-- Witness fixture: a guest entry with no vmid and a blank name. -/
def claim9VmEntry : VmEntry := { vmid := none, name := some "", status := some "running" }

/-- Witness fixture: a JSON parser double that rejects the body
`not-json` with the message `parse` and accepts anything else verbatim. -/
def claim5Parse : String → Except String String := fun s =>
  if s = "not-json" then Except.error "parse" else Except.ok s

/-- Counterexample fixture for C1: a client constructed with a valid host
and an empty API token. -/
def claim1BadClient : ProxmoxClient :=
  ProxmoxClient.ofConfig { host := "https://h:8006", apiToken := "", allowInsecure := none }

/-- Counterexample fixture for C1: a transport double that always
succeeds, so every recorded request is a real network attempt. -/
def claim1OkTransport : Transport Unit := fun _ => Except.ok ()

/-- Witness fixture for the amended C1: a client with empty host and
empty token. -/
def claim1EmptyClient : ProxmoxClient :=
  ProxmoxClient.ofConfig { host := "", apiToken := "", allowInsecure := none }

/-- Witness fixture for C2/C3: the example base URL after normalization. -/
def exampleBaseUrl : Url := { protocol := "https:", href := "https://h:8006/" }

/-- Witness fixture for C2/C3: the example client (host without trailing
slash, token as in the spec's end-to-end scenario). -/
def exampleClient : ProxmoxClient :=
  { host := "https://h:8006", apiToken := "u@pve!t=secret", allowInsecure := false }

/-- Witness fixture for C2: the example qemu collection. -/
def claim2QemuData : List VmEntry :=
  [{ vmid := some 100, name := some "web", status := some "running" }]

/-- Witness fixture for C2: the example lxc collection. -/
def claim2LxcData : List VmEntry :=
  [{ vmid := some 50, name := some "", status := some "stopped" }]

/-- Witness fixture for C2: a transport double answering the two guest
collection requests of node `pve1` with the example payloads. -/
def claim2Transport : Transport (DataEnvelope (List VmEntry)) := fun r =>
  if r = qemuRequest exampleBaseUrl "pve1" then Except.ok { data := some claim2QemuData }
  else if r = lxcRequest exampleBaseUrl "pve1" then Except.ok { data := some claim2LxcData }
  else Except.error (ClientError.transportError "unexpected request")

/-- Witness fixture for C3: a transport double whose qemu request fails
while the lxc request succeeds. -/
def claim3Transport : Transport (DataEnvelope (List VmEntry)) := fun r =>
  if r = lxcRequest exampleBaseUrl "pve1" then Except.ok { data := some claim2LxcData }
  else Except.error (ClientError.transportError "boom")

/-- Witness fixture for the missing-vmid length conjunct: two qemu
entries, one lacking a vmid. -/
def claim9QemuData : List VmEntry :=
  [{ vmid := none, name := some "", status := some "running" },
    { vmid := some 3, name := some "db", status := some "stopped" }]

/-- Witness fixture: an lxc collection with a single entry. -/
def claim9LxcData : List VmEntry :=
  [{ vmid := some 9, name := none, status := none }]

/-- C7: every node-status string outside online/offline (absent and empty
included) is reported as `unknown` by `normalizeStatus` and hence by the
`listNodes` mapper, and every guest-status string outside running/stopped
is reported as `unknown` by `normalizeVmStatus` and hence by the
`listVirtualMachines` mapper. -/
theorem claim7_status_unknown (s t : Option String)
    (hs1 : s ≠ some "online") (hs2 : s ≠ some "offline")
    (ht1 : t ≠ some "running") (ht2 : t ≠ some "stopped")
    (nm nm2 : Option String) (vid : Option Int) (ty : VmType) (node : String) :
    ProxmoxClient.normalizeStatus s = NodeStatus.unknown ∧
    ProxmoxClient.normalizeVmStatus t = VmStatus.unknown ∧
    (ProxmoxClient.mapNode { node := nm, status := s }).status = NodeStatus.unknown ∧
    (ProxmoxClient.mapVm { vmid := vid, name := nm2, status := t } ty node).status =
      VmStatus.unknown := by
  refine ⟨?_, ?_, ?_, ?_⟩ <;>
    simp [ProxmoxClient.normalizeStatus, ProxmoxClient.normalizeVmStatus,
      ProxmoxClient.mapNode, ProxmoxClient.mapVm, hs1, hs2, ht1, ht2]

/-- Witness for C7 at a concrete unrecognized node status (`"weird"`) and
a concrete absent guest status. -/
theorem claim7_status_unknown_witness :
    ProxmoxClient.normalizeStatus (some "weird") = NodeStatus.unknown ∧
    ProxmoxClient.normalizeVmStatus none = VmStatus.unknown ∧
    (ProxmoxClient.mapNode claim7NodeEntry).status = NodeStatus.unknown ∧
    (ProxmoxClient.mapVm claim7VmEntry VmType.qemu "pve1").status = VmStatus.unknown :=
  claim7_status_unknown (some "weird") none (by decide) (by decide) (by decide) (by decide)
    (some "pve1") (some "x") (some 7) VmType.qemu "pve1"

/-- C6: the snapshot list never contains a record named `current`, even
when the remote payload holds such an entry, and every payload entry with
a non-empty name other than `current` is mapped to a record carrying that
name and the remote snaptime (or `null` when absent) as `createdAt`. -/
theorem claim6_snapshot_filter (data : List SnapshotEntry) (e : SnapshotEntry)
    (he : e ∈ data) (n : String) (hn : e.name = some n) (h1 : n ≠ "") (h2 : n ≠ "current") :
    (∀ r ∈ ProxmoxClient.snapshotsFromData (some data), r.name ≠ "current") ∧
    ({ name := n, createdAt := e.snaptime } : ProxmoxSnapshot) ∈
      ProxmoxClient.snapshotsFromData (some data) := by
  constructor
  · intro r hr
    rcases List.mem_map.mp hr with ⟨a, ha, rfl⟩
    have hk := (List.mem_filter.mp ha).2
    cases hna : a.name with
    | none => simp [snapshotKeep, hna] at hk
    | some m =>
      simp [snapshotKeep, hna] at hk
      simp [mapSnapshot, hna]
      exact hk.2
  · have hkeep : snapshotKeep e = true := by simp [snapshotKeep, hn, h1, h2]
    have hmap : mapSnapshot e = { name := n, createdAt := e.snaptime } := by
      simp [mapSnapshot, hn]
    exact List.mem_map.mpr ⟨e, List.mem_filter.mpr ⟨he, hkeep⟩, hmap⟩

/-- Witness for C6: on a payload containing a `current` entry, a nameless
entry, an empty-named entry and the real snapshot `snap1`, no `current`
record is returned and `snap1` is returned with its snaptime. -/
theorem claim6_snapshot_filter_witness :
    (∀ r ∈ ProxmoxClient.snapshotsFromData (some snapshotPayload), r.name ≠ "current") ∧
    ({ name := "snap1", createdAt := some 5 } : ProxmoxSnapshot) ∈
      ProxmoxClient.snapshotsFromData (some snapshotPayload) :=
  claim6_snapshot_filter snapshotPayload { name := some "snap1", snaptime := some 5 }
    (by decide) "snap1" rfl (by decide) (by decide)

/-- C9: a guest entry lacking a numeric vmid is still returned, with id
`-1` and (when the name is also blank) the generated name `"VM unknown"`;
entries are neither rejected nor deduplicated, so the merged list always
has exactly one record per payload entry. -/
theorem claim9_missing_vmid (vm : VmEntry) (h : vm.vmid = none) (ty : VmType) (node : String)
    (qemuData lxcData : List VmEntry) :
    (ProxmoxClient.mapVm vm ty node).id = -1 ∧
    (jsTrim (vm.name.getD "") = "" → (ProxmoxClient.mapVm vm ty node).name = "VM unknown") ∧
    (ProxmoxClient.mergeGuestLists qemuData lxcData node).length =
      qemuData.length + lxcData.length := by
  refine ⟨?_, ?_, ?_⟩
  · simp [ProxmoxClient.mapVm, h]
  · intro hb
    simp [ProxmoxClient.mapVm, h, hb, vmidLabel]
  · simp [ProxmoxClient.mergeGuestLists]

/-- Witness for C9 at a concrete vmid-less entry and concrete payloads of
sizes 2 and 1 (one entry vmid-less). -/
theorem claim9_missing_vmid_witness :
    (ProxmoxClient.mapVm claim9VmEntry VmType.lxc "pve1").id = -1 ∧
    (jsTrim (claim9VmEntry.name.getD "") = "" →
      (ProxmoxClient.mapVm claim9VmEntry VmType.lxc "pve1").name = "VM unknown") ∧
    (ProxmoxClient.mergeGuestLists claim9QemuData claim9LxcData "pve1").length =
      claim9QemuData.length + claim9LxcData.length :=
  claim9_missing_vmid claim9VmEntry rfl VmType.lxc "pve1" claim9QemuData claim9LxcData

/-- C10: every record returned by the snapshot filter/map core has a
non-empty name, and an entry whose name is absent or empty contributes
nothing to the result (it is silently dropped, exactly like `current`). -/
theorem claim10_snapshot_names (data : List SnapshotEntry) (e : SnapshotEntry)
    (rest : List SnapshotEntry) (h : e.name = none ∨ e.name = some "") :
    (∀ r ∈ ProxmoxClient.snapshotsFromData (some data), r.name ≠ "") ∧
    ProxmoxClient.snapshotsFromData (some (e :: rest)) =
      ProxmoxClient.snapshotsFromData (some rest) := by
  constructor
  · intro r hr
    rcases List.mem_map.mp hr with ⟨a, ha, rfl⟩
    have hk := (List.mem_filter.mp ha).2
    cases hna : a.name with
    | none => simp [snapshotKeep, hna] at hk
    | some m =>
      simp [snapshotKeep, hna] at hk
      simp [mapSnapshot, hna]
      exact hk.1
  · have hdrop : snapshotKeep e = false := by
      rcases h with h | h <;> simp [snapshotKeep, h]
    simp [ProxmoxClient.snapshotsFromData, List.filter_cons, hdrop]

/-- Witness for C10 on the same concrete payload as C6: all returned
names are non-empty, and prepending a nameless entry changes nothing. -/
theorem claim10_snapshot_names_witness :
    (∀ r ∈ ProxmoxClient.snapshotsFromData (some snapshotPayload), r.name ≠ "") ∧
    ProxmoxClient.snapshotsFromData
        (some ({ name := none, snaptime := some 7 } :: snapshotPayload)) =
      ProxmoxClient.snapshotsFromData (some snapshotPayload) :=
  claim10_snapshot_names snapshotPayload { name := none, snaptime := some 7 } snapshotPayload
    (Or.inl rfl)

/-- C8 counterexample: the lxc guest of the spec's own end-to-end example
(id 50, empty name) gets the generated name `"VM 50"`, which is not a
placeholder built from the guest's type — the type-built reading
`"<Type> <id>"` would give `"lxc 50"`. -/
theorem claim8_counterexample :
    (ProxmoxClient.mapVm { vmid := some 50, name := some "", status := some "stopped" }
      VmType.lxc "pve1").name = "VM 50" ∧
    (ProxmoxClient.mapVm { vmid := some 50, name := some "", status := some "stopped" }
      VmType.lxc "pve1").name ≠ specPlaceholderName VmType.lxc 50 := by
  decide

/-- C8 as amended: a guest entry with a blank or absent name gets the
name `"VM <id>"` — the literal label `VM` followed by the numeric id,
independent of the guest's type — in both the list mapper and the detail
mapper, and the end-to-end example's lxc guest comes out exactly as the
spec displays it. -/
theorem claim8_placeholder_amended (vm : VmEntry) (ty : VmType) (node : String) (i : Int)
    (hid : vm.vmid = some i) (hname : jsTrim (vm.name.getD "") = "")
    (detail : VmDetailEntry) (node2 : String) (ty2 : VmType) (vmId : Int)
    (hdetail : jsTrim (detail.name.getD "") = "") :
    (ProxmoxClient.mapVm vm ty node).name = "VM " ++ toString i ∧
    (ProxmoxClient.detailFromData detail node2 ty2 vmId).name = "VM " ++ toString vmId ∧
    ProxmoxClient.mapVm { vmid := some 50, name := some "", status := some "stopped" }
        VmType.lxc "pve1" =
      { id := 50, name := "VM 50", status := VmStatus.stopped, type := VmType.lxc,
        node := "pve1" } := by
  refine ⟨?_, ?_, by decide⟩
  · simp [ProxmoxClient.mapVm, hname, hid, vmidLabel]
  · simp [ProxmoxClient.detailFromData, hdetail]

/-- Witness for the amended C8 at the example's lxc entry and at an
absent-name detail payload. -/
theorem claim8_placeholder_witness :
    (ProxmoxClient.mapVm { vmid := some 50, name := some "", status := some "stopped" }
      VmType.lxc "pve1").name = "VM " ++ toString (50 : Int) ∧
    (ProxmoxClient.detailFromData VmDetailEntry.empty "pve1" VmType.qemu 100).name =
      "VM " ++ toString (100 : Int) ∧
    ProxmoxClient.mapVm { vmid := some 50, name := some "", status := some "stopped" }
        VmType.lxc "pve1" =
      { id := 50, name := "VM 50", status := VmStatus.stopped, type := VmType.lxc,
        node := "pve1" } :=
  claim8_placeholder_amended { vmid := some 50, name := some "", status := some "stopped" }
    VmType.lxc "pve1" 50 rfl (by decide) VmDetailEntry.empty "pve1" VmType.qemu 100
    (by decide)

/-- C4: on a non-`http:` URL the insecure flag turns certificate
validation off (both through `rejectUnauthorized` and through a dedicated
agent); with the flag off, validation stays on and no agent is built; on
a plain `http:` URL the flag does not change the options at all. -/
theorem claim4_tls_options (c : ProxmoxClient) (url : Url) (method : Method)
    (body : Option (List (String × String))) :
    (url.protocol ≠ "http:" → c.allowInsecure = true →
      (c.buildRequestOptions url method body).rejectUnauthorized = some false ∧
      (c.buildRequestOptions url method body).agent = some { rejectUnauthorized := false }) ∧
    (url.protocol ≠ "http:" → c.allowInsecure = false →
      (c.buildRequestOptions url method body).rejectUnauthorized = some true ∧
      (c.buildRequestOptions url method body).agent = none) ∧
    (url.protocol = "http:" →
      ProxmoxClient.buildRequestOptions { c with allowInsecure := true } url method body =
        ProxmoxClient.buildRequestOptions { c with allowInsecure := false } url method
          body) := by
  refine ⟨fun hs hi => ?_, fun hs hi => ?_, fun hp => ?_⟩
  · constructor <;> simp [ProxmoxClient.buildRequestOptions, hs, hi]
  · constructor <;> simp [ProxmoxClient.buildRequestOptions, hs, hi]
  · simp [ProxmoxClient.buildRequestOptions, hp]

/-- Witness for C4 at concrete URLs: an `https:` URL with the flag on and
off, and an `http:` URL where the two flag values give equal options. -/
theorem claim4_tls_options_witness :
    ((ProxmoxClient.buildRequestOptions
        { host := "https://h:8006/", apiToken := "u@pve!t=secret", allowInsecure := true }
        { protocol := "https:", href := "https://h:8006/api2/json/nodes" } Method.GET
        none).rejectUnauthorized = some false ∧
      (ProxmoxClient.buildRequestOptions
        { host := "https://h:8006/", apiToken := "u@pve!t=secret", allowInsecure := true }
        { protocol := "https:", href := "https://h:8006/api2/json/nodes" } Method.GET
        none).agent = some { rejectUnauthorized := false }) ∧
    ((ProxmoxClient.buildRequestOptions
        { host := "https://h:8006/", apiToken := "u@pve!t=secret", allowInsecure := false }
        { protocol := "https:", href := "https://h:8006/api2/json/nodes" } Method.GET
        none).rejectUnauthorized = some true ∧
      (ProxmoxClient.buildRequestOptions
        { host := "https://h:8006/", apiToken := "u@pve!t=secret", allowInsecure := false }
        { protocol := "https:", href := "https://h:8006/api2/json/nodes" } Method.GET
        none).agent = none) ∧
    ProxmoxClient.buildRequestOptions
        { host := "http://h:8006/", apiToken := "u@pve!t=secret", allowInsecure := true }
        { protocol := "http:", href := "http://h:8006/api2/json/nodes" } Method.GET none =
      ProxmoxClient.buildRequestOptions
        { host := "http://h:8006/", apiToken := "u@pve!t=secret", allowInsecure := false }
        { protocol := "http:", href := "http://h:8006/api2/json/nodes" } Method.GET none :=
  ⟨(claim4_tls_options
      { host := "https://h:8006/", apiToken := "u@pve!t=secret", allowInsecure := true }
      { protocol := "https:", href := "https://h:8006/api2/json/nodes" } Method.GET
      none).1 (by decide) rfl,
    (claim4_tls_options
      { host := "https://h:8006/", apiToken := "u@pve!t=secret", allowInsecure := false }
      { protocol := "https:", href := "https://h:8006/api2/json/nodes" } Method.GET
      none).2.1 (by decide) rfl,
    (claim4_tls_options
      { host := "http://h:8006/", apiToken := "u@pve!t=secret", allowInsecure := true }
      { protocol := "http:", href := "http://h:8006/api2/json/nodes" } Method.GET
      none).2.2 rfl⟩

/-- C5: a missing or non-2xx status yields a protocol error whose message
contains both the numeric status code and the raw body text; a 2xx status
whose body the JSON parser rejects yields a decode error, a constructor
distinct from the protocol error. -/
theorem claim5_response_errors {α : Type} (parseJson : String → Except String α)
    (code : Nat) (body : String) (e : String) :
    (code < 200 ∨ 300 ≤ code →
      handleResponse parseJson (some code) body =
        Except.error (ClientError.protocolError
          ("Proxmox API error " ++ toString code ++ ": " ++ body)) ∧
      (∃ pre post, "Proxmox API error " ++ toString code ++ ": " ++ body =
        pre ++ toString code ++ post) ∧
      (∃ pre post, "Proxmox API error " ++ toString code ++ ": " ++ body =
        pre ++ body ++ post)) ∧
    (200 ≤ code → code < 300 → parseJson body = Except.error e →
      handleResponse parseJson (some code) body =
        Except.error (ClientError.decodeError e)) ∧
    (∀ m1 m2, ClientError.decodeError m1 ≠ ClientError.protocolError m2) := by
  refine ⟨fun h => ⟨?_, ?_, ?_⟩, fun h1 h2 hp => ?_, fun m1 m2 => by simp⟩
  · have hcond : some code = none ∨ (some code).getD 0 < 200 ∨ 300 ≤ (some code).getD 0 :=
      Or.inr (by simpa using h)
    rw [handleResponse, if_pos hcond]
    rfl
  · exact ⟨"Proxmox API error ", ": " ++ body, by simp [String.append_assoc]⟩
  · exact ⟨"Proxmox API error " ++ toString code ++ ": ", "", by
      simp [String.append_assoc]⟩
  · have hcond : ¬(some code = none ∨ (some code).getD 0 < 200 ∨ 300 ≤ (some code).getD 0) := by
      simp only [Option.getD_some]
      push_neg
      exact ⟨Option.some_ne_none code, h1, h2⟩
    rw [handleResponse, if_neg hcond, hp]

/-- Witness for C5: a 500 response with body `permission denied` gives
the protocol-error message carrying both the code and the body, and a 200
response with body `not-json` gives the distinct decode error. -/
theorem claim5_response_errors_witness :
    handleResponse claim5Parse (some 500) "permission denied" =
      Except.error (ClientError.protocolError
        ("Proxmox API error " ++ toString (500 : Nat) ++ ": " ++ "permission denied")) ∧
    handleResponse claim5Parse (some 200) "not-json" =
      Except.error (ClientError.decodeError "parse") :=
  ⟨((claim5_response_errors claim5Parse 500 "permission denied" "parse").1
      (by decide)).1,
    (claim5_response_errors claim5Parse 200 "not-json" "parse").2.1 (by decide) (by decide)
      (by decide)⟩

/-- With an empty host, `normalizedBaseUrl` throws the URL constructor's
error before any request is built. -/
theorem normalizedBaseUrl_of_empty_host (c : ProxmoxClient) (h : c.host = "") :
    c.normalizedBaseUrl = Except.error (ClientError.urlError "Invalid URL") := by
  unfold ProxmoxClient.normalizedBaseUrl
  rw [h]
  decide

/-- C1 counterexample: a client whose configured token is empty (host
valid) does not fail fast on `startGuest` — the operation hands one
request to the transport (a network attempt) and succeeds, refuting the
claim that every operation fails with a configuration error before any
network I/O. -/
theorem claim1_counterexample :
    claim1BadClient.apiToken = "" ∧
    (claim1BadClient.startVirtualMachine claim1OkTransport "pve1" VmType.qemu 100).2.length
      = 1 ∧
    (claim1BadClient.startVirtualMachine claim1OkTransport "pve1" VmType.qemu 100).1 =
      Except.ok () := by
  refine ⟨by decide, by decide, by decide⟩

/-- C1 as amended: only `listNodes`, `listGuests` and `getGuestDetail`
carry the host/token guard — with an empty host or empty token they fail
with the configuration error and zero transport invocations.  The
lifecycle and snapshot operations have no guard: with an empty host they
still fail before any transport invocation, but from the URL constructor,
not with a configuration error (and, per the counterexample, with an
empty token alone they do attempt the network). -/
theorem claim1_config_guard_amended (c : ProxmoxClient)
    (h : c.host = "" ∨ c.apiToken = "")
    (tNodes : Transport (DataEnvelope (List NodeEntry)))
    (tVms : Transport (DataEnvelope (List VmEntry)))
    (tDetail : Transport (DataEnvelope VmDetailEntry))
    (tAction : Transport Unit)
    (tSnap : Transport (DataEnvelope (List SnapshotEntry)))
    (node : String) (ty : VmType) (vmId : Int) (snapName : String) :
    c.listNodes tNodes = (Except.error (ClientError.configError configErrorMessage), []) ∧
    c.listVirtualMachines tVms node =
      (Except.error (ClientError.configError configErrorMessage), []) ∧
    c.getVirtualMachineDetails tDetail node ty vmId =
      (Except.error (ClientError.configError configErrorMessage), []) ∧
    (c.host = "" →
      c.startVirtualMachine tAction node ty vmId =
        (Except.error (ClientError.urlError "Invalid URL"), []) ∧
      c.stopVirtualMachine tAction node ty vmId =
        (Except.error (ClientError.urlError "Invalid URL"), []) ∧
      c.restartVirtualMachine tAction node ty vmId =
        (Except.error (ClientError.urlError "Invalid URL"), []) ∧
      c.listSnapshots tSnap node ty vmId =
        (Except.error (ClientError.urlError "Invalid URL"), []) ∧
      c.createSnapshot tAction node ty vmId snapName =
        (Except.error (ClientError.urlError "Invalid URL"), []) ∧
      c.deleteSnapshot tAction node ty vmId snapName =
        (Except.error (ClientError.urlError "Invalid URL"), []) ∧
      c.restoreSnapshot tAction node ty vmId snapName =
        (Except.error (ClientError.urlError "Invalid URL"), [])) := by
  refine ⟨?_, ?_, ?_, fun hh => ?_⟩
  · unfold ProxmoxClient.listNodes
    rw [if_pos h]
  · unfold ProxmoxClient.listVirtualMachines
    rw [if_pos h]
  · unfold ProxmoxClient.getVirtualMachineDetails
    rw [if_pos h]
  · have hb := normalizedBaseUrl_of_empty_host c hh
    refine ⟨?_, ?_, ?_, ?_, ?_, ?_, ?_⟩ <;>
      simp [ProxmoxClient.startVirtualMachine, ProxmoxClient.stopVirtualMachine,
        ProxmoxClient.restartVirtualMachine, ProxmoxClient.listSnapshots,
        ProxmoxClient.createSnapshot, ProxmoxClient.deleteSnapshot,
        ProxmoxClient.restoreSnapshot, hb]

/-- Witness for the amended C1 at a client with empty host and token: the
guarded `listNodes` fails with the configuration error and an empty
trace, and the unguarded `startGuest` fails from the URL constructor,
also with an empty trace. -/
theorem claim1_config_guard_witness :
    claim1EmptyClient.listNodes (fun _ => Except.ok { data := none }) =
      (Except.error (ClientError.configError configErrorMessage), []) ∧
    claim1EmptyClient.startVirtualMachine claim1OkTransport "pve1" VmType.qemu 100 =
      (Except.error (ClientError.urlError "Invalid URL"), []) :=
  ⟨(claim1_config_guard_amended claim1EmptyClient (Or.inl (by decide))
      (fun _ => Except.ok { data := none }) (fun _ => Except.ok { data := none })
      (fun _ => Except.ok { data := none }) claim1OkTransport
      (fun _ => Except.ok { data := none }) "pve1" VmType.qemu 100 "snap").1,
    ((claim1_config_guard_amended claim1EmptyClient (Or.inl (by decide))
      (fun _ => Except.ok { data := none }) (fun _ => Except.ok { data := none })
      (fun _ => Except.ok { data := none }) claim1OkTransport
      (fun _ => Except.ok { data := none }) "pve1" VmType.qemu 100 "snap").2.2.2
      (by decide)).1⟩

/-- The comparator of `listVirtualMachines` is transitive. -/
theorem vmLe_trans : ∀ a b c : ProxmoxVm, vmLe a b → vmLe b c → vmLe a c := by
  intro a b c
  simp only [vmLe, decide_eq_true_eq]
  omega

/-- The comparator of `listVirtualMachines` is total. -/
theorem vmLe_total : ∀ a b : ProxmoxVm, vmLe a b || vmLe b a := by
  intro a b
  simp only [vmLe, Bool.or_eq_true, decide_eq_true_eq]
  omega

/-- Stability of the id-sort: for every id, the records carrying that id
appear in the sorted output exactly as they appear in the input. -/
theorem mergeSort_filter_key (l : List ProxmoxVm) (k : Int) :
    (List.mergeSort l vmLe).filter (fun v => decide (v.id = k)) =
      l.filter (fun v => decide (v.id = k)) := by
  have hall : ∀ v ∈ l.filter (fun v => decide (v.id = k)), decide (v.id = k) = true :=
    fun v hv => (List.mem_filter.mp hv).2
  have hpw : (l.filter (fun v => decide (v.id = k))).Pairwise (fun a b => vmLe a b) := by
    refine List.pairwise_of_forall_mem_list ?_
    intro a ha b hb
    have ha2 := of_decide_eq_true (hall a ha)
    have hb2 := of_decide_eq_true (hall b hb)
    simp [vmLe, ha2, hb2]
  have hsub := List.sublist_mergeSort vmLe_trans vmLe_total hpw (List.filter_sublist l)
  have hsub2 := hsub.filter (fun v => decide (v.id = k))
  rw [List.filter_eq_self.mpr hall] at hsub2
  have hperm := (List.mergeSort_perm l vmLe).filter (fun v => decide (v.id = k))
  exact (List.Sublist.eq_of_length hsub2 hperm.length_eq.symm).symm

/-- C2: merging a qemu collection of N entries with an lxc collection of
M entries yields exactly N+M guest records, sorted non-decreasing by id;
the sort is stable — for every id the tied records appear exactly in
their merge order, so the guest type never decides the order — and the
full `listGuests` operation returns exactly this merged list when both
transports deliver the payloads. -/
theorem claim2_merge_sort (qemuData lxcData : List VmEntry) (node : String) :
    (ProxmoxClient.mergeGuestLists qemuData lxcData node).length =
      qemuData.length + lxcData.length ∧
    (ProxmoxClient.mergeGuestLists qemuData lxcData node).Pairwise
      (fun a b => a.id ≤ b.id) ∧
    (∀ k : Int,
      (ProxmoxClient.mergeGuestLists qemuData lxcData node).filter (fun v => v.id = k) =
        (qemuData.map (fun vm => ProxmoxClient.mapVm vm VmType.qemu node) ++
          lxcData.map (fun vm => ProxmoxClient.mapVm vm VmType.lxc node)).filter
          (fun v => v.id = k)) ∧
    (∀ (c : ProxmoxClient) (t : Transport (DataEnvelope (List VmEntry))) (u : Url),
      ¬(c.host = "" ∨ c.apiToken = "") →
      c.normalizedBaseUrl = Except.ok u →
      t (qemuRequest u node) = Except.ok { data := some qemuData } →
      t (lxcRequest u node) = Except.ok { data := some lxcData } →
      c.listVirtualMachines t node =
        (Except.ok (ProxmoxClient.mergeGuestLists qemuData lxcData node),
          [qemuRequest u node, lxcRequest u node])) := by
  refine ⟨?_, ?_, ?_, ?_⟩
  · simp [ProxmoxClient.mergeGuestLists]
  · exact (List.sorted_mergeSort vmLe_trans vmLe_total _).imp
      (fun hab => by simpa [vmLe] using hab)
  · intro k
    exact mergeSort_filter_key
      (qemuData.map (fun vm => ProxmoxClient.mapVm vm VmType.qemu node) ++
        lxcData.map (fun vm => ProxmoxClient.mapVm vm VmType.lxc node)) k
  · intro c t u hg hu h1 h2
    simp only [ProxmoxClient.listVirtualMachines, if_neg hg, hu, h1, h2,
      Option.getD_some]

/-- Witness for C2 at the end-to-end example: node `pve1` with the
one-entry qemu and lxc payloads, both transports succeeding. -/
theorem claim2_merge_sort_witness :
    exampleClient.listVirtualMachines claim2Transport "pve1" =
      (Except.ok (ProxmoxClient.mergeGuestLists claim2QemuData claim2LxcData "pve1"),
        [qemuRequest exampleBaseUrl "pve1", lxcRequest exampleBaseUrl "pve1"]) :=
  (claim2_merge_sort claim2QemuData claim2LxcData "pve1").2.2.2 exampleClient
    claim2Transport exampleBaseUrl (by decide) (by decide) (by decide) (by decide)

/-- C3: when either of the two concurrent sub-requests of `listGuests`
fails, the whole call fails — no guest list, partial or otherwise, is
ever returned. -/
theorem claim3_no_partial (c : ProxmoxClient) (t : Transport (DataEnvelope (List VmEntry)))
    (node : String) (u : Url) (hu : c.normalizedBaseUrl = Except.ok u) (e : ClientError)
    (hfail : t (qemuRequest u node) = Except.error e ∨
      t (lxcRequest u node) = Except.error e) :
    ∀ vs : List ProxmoxVm, (c.listVirtualMachines t node).1 ≠ Except.ok vs := by
  intro vs
  by_cases hg : c.host = "" ∨ c.apiToken = ""
  · simp [ProxmoxClient.listVirtualMachines, if_pos hg]
  · cases hq : t (qemuRequest u node) with
    | error e1 => simp [ProxmoxClient.listVirtualMachines, if_neg hg, hu, hq]
    | ok q =>
      cases hl : t (lxcRequest u node) with
      | error e2 => simp [ProxmoxClient.listVirtualMachines, if_neg hg, hu, hq, hl]
      | ok l =>
        rcases hfail with hf | hf
        · rw [hq] at hf
          exact absurd hf (by simp)
        · rw [hl] at hf
          exact absurd hf (by simp)

/-- Witness for C3: with the qemu request failing, `listGuests` on the
example client returns no list (in particular not the empty list). -/
theorem claim3_no_partial_witness :
    (exampleClient.listVirtualMachines claim3Transport "pve1").1 ≠ Except.ok [] :=
  claim3_no_partial exampleClient claim3Transport "pve1" exampleBaseUrl (by decide)
    (ClientError.transportError "boom") (Or.inl (by decide)) []

end Proxmox
